import Mathlib

/-!
Verification of `pytorch_lightning/utilities/apply_func.py`.

We shallowly embed the Python runtime values that `apply_to_collection`
dispatches on: a dynamic value is an integer, a string, a tensor, `None`,
a list, a plain tuple, a named tuple (a tuple subtype carrying a type name
and `_fields` metadata), or a dict (the only `Mapping` in scope).  Lists
of children are represented by the mutually inductive `ValueList` /
`KVList` so that all recursions are structural.

`isinstance` checks are embedded by `typeMatches` / `isinstance` over a
list of type tags (Python's "type or tuple of types").  A tensor records
its device and whether its last `.to` call requested `non_blocking`.

The source performs the `isinstance(data, dtype)` test once and then
dispatches on the runtime shape of `data`; since the shape cases are
exhaustive, our embedding repeats that test in each constructor case,
which keeps every recursion structural.
-/

structure Tensor where
  data : Int
  device : Nat
  nonBlockingRequested : Bool
  deriving DecidableEq, Repr

/-- Models `tensor.to(device, non_blocking=nb)`: a tensor on `device`,
recording whether a non-blocking transfer was requested. -/
def Tensor.to (t : Tensor) (device : Nat) (non_blocking : Bool) : Tensor :=
  { data := t.data, device := device, nonBlockingRequested := non_blocking }

mutual

inductive Value where
  | vint : Int → Value
  | vstr : String → Value
  | vtensor : Tensor → Value
  | vnone : Value
  | vlist : ValueList → Value
  | vtuple : ValueList → Value
  | vnamedtuple : String → ValueList → Value
  | vdict : KVList → Value
  deriving DecidableEq, Repr

inductive ValueList where
  | nil : ValueList
  | cons : Value → ValueList → ValueList
  deriving DecidableEq, Repr

inductive KVList where
  | nil : KVList
  | cons : String → Value → KVList → KVList
  deriving DecidableEq, Repr

end

/-- The runtime type tags a `dtype` argument can name. -/
inductive PyType where
  | tInt : PyType
  | tStr : PyType
  | tTensor : PyType
  | tNoneType : PyType
  | tList : PyType
  | tTuple : PyType
  | tNamedTuple : String → PyType
  | tDict : PyType
  deriving DecidableEq, Repr

/-- Embeds `isinstance(v, t)` for a single type tag.  A named tuple is an
instance of `tuple` (it is a tuple subtype in Python). -/
def typeMatches (v : Value) (t : PyType) : Bool :=
  match v, t with
  | .vint _, .tInt => true
  | .vstr _, .tStr => true
  | .vtensor _, .tTensor => true
  | .vnone, .tNoneType => true
  | .vlist _, .tList => true
  | .vtuple _, .tTuple => true
  | .vnamedtuple _ _, .tTuple => true
  | .vnamedtuple n _, .tNamedTuple m => n == m
  | .vdict _, .tDict => true
  | _, _ => false

/-- Embeds `isinstance(v, dtype)` where `dtype` is a type or tuple of types. -/
def isinstance (v : Value) (dtype : List PyType) : Bool :=
  dtype.any (typeMatches v)

/-- Embeds `isinstance(v, Mapping)`. -/
def isMapping (v : Value) : Bool :=
  match v with
  | .vdict _ => true
  | _ => false

/-- Embeds the named-tuple test of the source: an instance of `tuple`
that carries `_fields` metadata. -/
def isNamedTuple (v : Value) : Bool :=
  match v with
  | .vnamedtuple _ _ => true
  | _ => false

/-- Embeds `isinstance(v, Sequence)`: lists, tuples (named or not) and
strings are the `collections` sequences in scope. -/
def isSequence (v : Value) : Bool :=
  match v with
  | .vlist _ => true
  | .vtuple _ => true
  | .vnamedtuple _ _ => true
  | .vstr _ => true
  | _ => false

/-- Embeds `isinstance(v, str)`. -/
def isStr (v : Value) : Bool :=
  match v with
  | .vstr _ => true
  | _ => false

/-- The transformation argument: `function(data, *args, **kwargs)`. -/
def PyFun : Type :=
  Value → List Value → List (String × Value) → Value

mutual

/-- Embeds `apply_to_collection(data, dtype, function, *args, **kwargs)`:

```
elem_type = type(data)
if isinstance(data, dtype):
    return function(data, *args, **kwargs)
elif isinstance(data, Mapping):
    return elem_type({k: apply_to_collection(v, ...) for k, v in data.items()})
elif isinstance(data, tuple) and hasattr(data, '_fields'):
    return elem_type(*(apply_to_collection(d, ...) for d in data))
elif isinstance(data, Sequence) and not isinstance(data, str):
    return elem_type([apply_to_collection(d, ...) for d in data])
return data
```

Since `elem_type` is `type(data)`, a dict rebuilds as the same dict type,
a named tuple rebuilds positionally as the same named-tuple type, and a
sequence rebuilds through `elem_type([...])` (a list stays a list, a
plain tuple stays a tuple).  A string is a `Sequence` but is excluded by
the `not isinstance(data, str)` guard, so it falls to the final
`return data`; so do ints, tensors and `None`. -/
def apply_to_collection (dtype : List PyType) (function : PyFun)
    (args : List Value) (kwargs : List (String × Value)) : Value → Value
  | .vdict kvs =>
      if isinstance (.vdict kvs) dtype then function (.vdict kvs) args kwargs
      else .vdict (apply_to_collection_kvs dtype function args kwargs kvs)
  | .vnamedtuple n fs =>
      if isinstance (.vnamedtuple n fs) dtype then
        function (.vnamedtuple n fs) args kwargs
      else .vnamedtuple n (apply_to_collection_list dtype function args kwargs fs)
  | .vlist ds =>
      if isinstance (.vlist ds) dtype then function (.vlist ds) args kwargs
      else .vlist (apply_to_collection_list dtype function args kwargs ds)
  | .vtuple ds =>
      if isinstance (.vtuple ds) dtype then function (.vtuple ds) args kwargs
      else .vtuple (apply_to_collection_list dtype function args kwargs ds)
  | other =>
      if isinstance other dtype then function other args kwargs
      else other

/-- Elementwise recursion of `apply_to_collection` over the children of a
sequence or named tuple, in order. -/
def apply_to_collection_list (dtype : List PyType) (function : PyFun)
    (args : List Value) (kwargs : List (String × Value)) : ValueList → ValueList
  | .nil => .nil
  | .cons d ds =>
      .cons (apply_to_collection dtype function args kwargs d)
        (apply_to_collection_list dtype function args kwargs ds)

/-- The dict comprehension `{k: apply_to_collection(v, ...) for k, v in
data.items()}`: keys kept, values recursed, order preserved. -/
def apply_to_collection_kvs (dtype : List PyType) (function : PyFun)
    (args : List Value) (kwargs : List (String × Value)) : KVList → KVList
  | .nil => .nil
  | .cons k v kvs =>
      .cons k (apply_to_collection dtype function args kwargs v)
        (apply_to_collection_kvs dtype function args kwargs kvs)

end

/-- Embeds the inner closure of `transfer_batch_to_device`:

```
def to(tensor):
    return tensor.to(device, non_blocking=True)
```

It is only ever invoked on values matching `torch.Tensor`; on anything
else the attribute lookup would fail, so the fallback arm is unreachable
under `apply_to_collection`. -/
def transfer_to (device : Nat) : PyFun := fun tensor _ _ =>
  match tensor with
  | .vtensor t => .vtensor (t.to device true)
  | other => other

/-- Embeds `transfer_batch_to_device(batch, device)`:

```
return apply_to_collection(batch, dtype=torch.Tensor, function=to)
```
-/
def transfer_batch_to_device (batch : Value) (device : Nat) : Value :=
  apply_to_collection [.tTensor] (transfer_to device) [] [] batch

/-! ### Observation helpers used to state the specification claims -/

/-- Children of a `ValueList`, as a Lean list, in order. -/
def ValueList.toList : ValueList → List Value
  | .nil => []
  | .cons d ds => d :: ds.toList

/-- Keys of a dict, in iteration order. -/
def KVList.keys : KVList → List String
  | .nil => []
  | .cons k _ kvs => k :: kvs.keys

/-- Values of a dict, in iteration order. -/
def KVList.vals : KVList → List Value
  | .nil => []
  | .cons _ v kvs => v :: kvs.vals

/-- A value the recursion descends into: a mapping, a named tuple, or a
non-string ordered sequence. -/
def isRecognizedContainer (v : Value) : Bool :=
  isMapping v || isNamedTuple v || (isSequence v && !isStr v)

/-- Elements of a plain (non-named) ordered sequence, `none` elsewhere. -/
def seqElems : Value → Option ValueList
  | .vlist ds => some ds
  | .vtuple ds => some ds
  | _ => none

mutual

/-- Holds when every tensor reachable in the value sits on `device` and
had a non-blocking transfer requested. -/
def tensorsMovedTo (device : Nat) : Value → Bool
  | .vtensor t => t.device == device && t.nonBlockingRequested
  | .vlist ds => tensorsMovedToList device ds
  | .vtuple ds => tensorsMovedToList device ds
  | .vnamedtuple _ fs => tensorsMovedToList device fs
  | .vdict kvs => tensorsMovedToKVs device kvs
  | _ => true

def tensorsMovedToList (device : Nat) : ValueList → Bool
  | .nil => true
  | .cons d ds => tensorsMovedTo device d && tensorsMovedToList device ds

def tensorsMovedToKVs (device : Nat) : KVList → Bool
  | .nil => true
  | .cons _ v kvs => tensorsMovedTo device v && tensorsMovedToKVs device kvs

end

mutual

/-- Replaces every tensor by `vnone`, keeping everything else in place:
two values agree under `eraseTensors` exactly when they have the same
container shape and the same non-tensor leaves in the same positions. -/
def eraseTensors : Value → Value
  | .vtensor _ => .vnone
  | .vlist ds => .vlist (eraseTensorsList ds)
  | .vtuple ds => .vtuple (eraseTensorsList ds)
  | .vnamedtuple n fs => .vnamedtuple n (eraseTensorsList fs)
  | .vdict kvs => .vdict (eraseTensorsKVs kvs)
  | other => other

def eraseTensorsList : ValueList → ValueList
  | .nil => .nil
  | .cons d ds => .cons (eraseTensors d) (eraseTensorsList ds)

def eraseTensorsKVs : KVList → KVList
  | .nil => .nil
  | .cons k v kvs => .cons k (eraseTensors v) (eraseTensorsKVs kvs)

end

/-! ### Fallible refinement

Python exceptions are implicit; to reason about error propagation we give
the standard fallible embedding in the `Except` monad.  The transformation
function may now raise; `apply_to_collectionE` sequences the recursive
calls exactly as the source's comprehensions do (left to right) and has
no handler anywhere, so the first raise aborts the whole call. -/

/-- A transformation function that may raise an exception of type `ε`. -/
def PyFunE (ε : Type) : Type :=
  Value → List Value → List (String × Value) → Except ε Value

mutual

/-- Fallible version of `apply_to_collection`: same branch structure, the
transformation may raise, and nothing is caught. -/
def apply_to_collectionE {ε : Type} (dtype : List PyType) (function : PyFunE ε)
    (args : List Value) (kwargs : List (String × Value)) : Value → Except ε Value
  | .vdict kvs =>
      if isinstance (.vdict kvs) dtype then function (.vdict kvs) args kwargs
      else do
        let kvs' ← apply_to_collectionE_kvs dtype function args kwargs kvs
        pure (.vdict kvs')
  | .vnamedtuple n fs =>
      if isinstance (.vnamedtuple n fs) dtype then
        function (.vnamedtuple n fs) args kwargs
      else do
        let fs' ← apply_to_collectionE_list dtype function args kwargs fs
        pure (.vnamedtuple n fs')
  | .vlist ds =>
      if isinstance (.vlist ds) dtype then function (.vlist ds) args kwargs
      else do
        let ds' ← apply_to_collectionE_list dtype function args kwargs ds
        pure (.vlist ds')
  | .vtuple ds =>
      if isinstance (.vtuple ds) dtype then function (.vtuple ds) args kwargs
      else do
        let ds' ← apply_to_collectionE_list dtype function args kwargs ds
        pure (.vtuple ds')
  | other =>
      if isinstance other dtype then function other args kwargs
      else pure other

def apply_to_collectionE_list {ε : Type} (dtype : List PyType) (function : PyFunE ε)
    (args : List Value) (kwargs : List (String × Value)) : ValueList → Except ε ValueList
  | .nil => pure .nil
  | .cons d ds => do
      let d' ← apply_to_collectionE dtype function args kwargs d
      let ds' ← apply_to_collectionE_list dtype function args kwargs ds
      pure (.cons d' ds')

def apply_to_collectionE_kvs {ε : Type} (dtype : List PyType) (function : PyFunE ε)
    (args : List Value) (kwargs : List (String × Value)) : KVList → Except ε KVList
  | .nil => pure .nil
  | .cons k v kvs => do
      let v' ← apply_to_collectionE dtype function args kwargs v
      let kvs' ← apply_to_collectionE_kvs dtype function args kwargs kvs
      pure (.cons k v' kvs')

end

/-! ### Fuel-bounded recursion

To state termination as a theorem we give a fuel-indexed version that
mirrors the unbounded recursion of the source call for call, spending one
unit of fuel per nesting level, and show that nesting depth plus one is
always enough fuel. -/

mutual

/-- Maximum container-nesting depth.  Strings, tensors, ints and `None`
have depth `0`: the traversal never descends into them. -/
def depth : Value → Nat
  | .vlist ds => depthList ds + 1
  | .vtuple ds => depthList ds + 1
  | .vnamedtuple _ fs => depthList fs + 1
  | .vdict kvs => depthKVs kvs + 1
  | _ => 0

def depthList : ValueList → Nat
  | .nil => 0
  | .cons d ds => max (depth d) (depthList ds)

def depthKVs : KVList → Nat
  | .nil => 0
  | .cons _ v kvs => max (depth v) (depthKVs kvs)

end

mutual

/-- Version of `apply_to_collection` that spends one unit of fuel per
recursion level and gives up with `none` when the fuel runs out. -/
def apply_fuel (dtype : List PyType) (function : PyFun)
    (args : List Value) (kwargs : List (String × Value)) : Nat → Value → Option Value
  | 0, _ => none
  | fuel + 1, .vdict kvs =>
      if isinstance (.vdict kvs) dtype then some (function (.vdict kvs) args kwargs)
      else (apply_fuel_kvs dtype function args kwargs fuel kvs).map .vdict
  | fuel + 1, .vnamedtuple n fs =>
      if isinstance (.vnamedtuple n fs) dtype then
        some (function (.vnamedtuple n fs) args kwargs)
      else (apply_fuel_list dtype function args kwargs fuel fs).map (.vnamedtuple n)
  | fuel + 1, .vlist ds =>
      if isinstance (.vlist ds) dtype then some (function (.vlist ds) args kwargs)
      else (apply_fuel_list dtype function args kwargs fuel ds).map .vlist
  | fuel + 1, .vtuple ds =>
      if isinstance (.vtuple ds) dtype then some (function (.vtuple ds) args kwargs)
      else (apply_fuel_list dtype function args kwargs fuel ds).map .vtuple
  | _ + 1, other =>
      if isinstance other dtype then some (function other args kwargs)
      else some other

def apply_fuel_list (dtype : List PyType) (function : PyFun)
    (args : List Value) (kwargs : List (String × Value)) : Nat → ValueList → Option ValueList
  | _, .nil => some .nil
  | fuel, .cons d ds => do
      let d' ← apply_fuel dtype function args kwargs fuel d
      let ds' ← apply_fuel_list dtype function args kwargs fuel ds
      pure (.cons d' ds')

def apply_fuel_kvs (dtype : List PyType) (function : PyFun)
    (args : List Value) (kwargs : List (String × Value)) : Nat → KVList → Option KVList
  | _, .nil => some .nil
  | fuel, .cons k v kvs => do
      let v' ← apply_fuel dtype function args kwargs fuel v
      let kvs' ← apply_fuel_kvs dtype function args kwargs fuel kvs
      pure (.cons k v' kvs')

end

/-! ### Application trace

To pin down how often the transformation function runs, and on what, we
instrument the recursion with a trace of the arguments it is applied to. -/

mutual

/-- Instrumented `apply_to_collection`: also returns, in traversal order,
the list of sub-values the transformation function was applied to. -/
def apply_traced (dtype : List PyType) (function : PyFun)
    (args : List Value) (kwargs : List (String × Value)) : Value → Value × List Value
  | .vdict kvs =>
      if isinstance (.vdict kvs) dtype then
        (function (.vdict kvs) args kwargs, [.vdict kvs])
      else
        let r := apply_traced_kvs dtype function args kwargs kvs
        (.vdict r.1, r.2)
  | .vnamedtuple n fs =>
      if isinstance (.vnamedtuple n fs) dtype then
        (function (.vnamedtuple n fs) args kwargs, [.vnamedtuple n fs])
      else
        let r := apply_traced_list dtype function args kwargs fs
        (.vnamedtuple n r.1, r.2)
  | .vlist ds =>
      if isinstance (.vlist ds) dtype then
        (function (.vlist ds) args kwargs, [.vlist ds])
      else
        let r := apply_traced_list dtype function args kwargs ds
        (.vlist r.1, r.2)
  | .vtuple ds =>
      if isinstance (.vtuple ds) dtype then
        (function (.vtuple ds) args kwargs, [.vtuple ds])
      else
        let r := apply_traced_list dtype function args kwargs ds
        (.vtuple r.1, r.2)
  | other =>
      if isinstance other dtype then (function other args kwargs, [other])
      else (other, [])

def apply_traced_list (dtype : List PyType) (function : PyFun)
    (args : List Value) (kwargs : List (String × Value)) : ValueList → ValueList × List Value
  | .nil => (.nil, [])
  | .cons d ds =>
      let r := apply_traced dtype function args kwargs d
      let rs := apply_traced_list dtype function args kwargs ds
      (.cons r.1 rs.1, r.2 ++ rs.2)

def apply_traced_kvs (dtype : List PyType) (function : PyFun)
    (args : List Value) (kwargs : List (String × Value)) : KVList → KVList × List Value
  | .nil => (.nil, [])
  | .cons k v kvs =>
      let r := apply_traced dtype function args kwargs v
      let rs := apply_traced_kvs dtype function args kwargs kvs
      (.cons k r.1 rs.1, r.2 ++ rs.2)

end

mutual

/-- The maximal sub-values matching `dtype` reached by the traversal, in
traversal order, one occurrence per structural position.  Defined without
reference to any transformation function. -/
def matchedLeaves (dtype : List PyType) : Value → List Value
  | .vdict kvs =>
      if isinstance (.vdict kvs) dtype then [.vdict kvs]
      else matchedLeavesKVs dtype kvs
  | .vnamedtuple n fs =>
      if isinstance (.vnamedtuple n fs) dtype then [.vnamedtuple n fs]
      else matchedLeavesList dtype fs
  | .vlist ds =>
      if isinstance (.vlist ds) dtype then [.vlist ds]
      else matchedLeavesList dtype ds
  | .vtuple ds =>
      if isinstance (.vtuple ds) dtype then [.vtuple ds]
      else matchedLeavesList dtype ds
  | other =>
      if isinstance other dtype then [other]
      else []

def matchedLeavesList (dtype : List PyType) : ValueList → List Value
  | .nil => []
  | .cons d ds => matchedLeaves dtype d ++ matchedLeavesList dtype ds

def matchedLeavesKVs (dtype : List PyType) : KVList → List Value
  | .nil => []
  | .cons _ v kvs => matchedLeaves dtype v ++ matchedLeavesKVs dtype kvs

end

/-! ### Elementwise behaviour of the recursion helpers -/

/-- Elementwise recursion, seen through `ValueList.toList`: the children
of the rebuilt sequence are the recursive images of the children of the
input, in the same order. -/
theorem apply_to_collection_list_toList (dtype : List PyType) (function : PyFun)
    (args : List Value) (kwargs : List (String × Value)) :
    ∀ ds : ValueList,
      (apply_to_collection_list dtype function args kwargs ds).toList
        = ds.toList.map (apply_to_collection dtype function args kwargs)
  | .nil => by simp [apply_to_collection_list, ValueList.toList]
  | .cons d ds => by
      simp [apply_to_collection_list, ValueList.toList,
        apply_to_collection_list_toList dtype function args kwargs ds]

/-- The dict comprehension leaves the key list untouched. -/
theorem apply_to_collection_kvs_keys (dtype : List PyType) (function : PyFun)
    (args : List Value) (kwargs : List (String × Value)) :
    ∀ kvs : KVList,
      (apply_to_collection_kvs dtype function args kwargs kvs).keys = kvs.keys
  | .nil => by simp [apply_to_collection_kvs, KVList.keys]
  | .cons k v kvs => by
      simp [apply_to_collection_kvs, KVList.keys,
        apply_to_collection_kvs_keys dtype function args kwargs kvs]

/-- The dict comprehension maps the value list elementwise, in order. -/
theorem apply_to_collection_kvs_vals (dtype : List PyType) (function : PyFun)
    (args : List Value) (kwargs : List (String × Value)) :
    ∀ kvs : KVList,
      (apply_to_collection_kvs dtype function args kwargs kvs).vals
        = kvs.vals.map (apply_to_collection dtype function args kwargs)
  | .nil => by simp [apply_to_collection_kvs, KVList.vals]
  | .cons k v kvs => by
      simp [apply_to_collection_kvs, KVList.vals,
        apply_to_collection_kvs_vals dtype function args kwargs kvs]

/-! ### Example transformation functions for concrete checks -/

/-- Lifts an integer function to a transformation on values. -/
def onInt (g : Int → Int) : PyFun := fun v _ _ =>
  match v with
  | .vint n => .vint (g n)
  | o => o

/-- A transformation returning the constant `7`. -/
def constSeven : PyFun := fun _ _ _ => .vint 7

/-! ### Claim C2: the leaf-type check is the base case and has priority -/

/-- C2: whenever `isinstance(data, dtype)` holds the call returns
`function(data, *args, **kwargs)`; the check precedes every structural
check, so mappings, named tuples and sequences matching `dtype` are
treated as leaves and never recursed into. -/
theorem claim_C2_leaf_priority (dtype : List PyType) (function : PyFun)
    (args : List Value) (kwargs : List (String × Value)) (data : Value)
    (h : isinstance data dtype = true) :
    apply_to_collection dtype function args kwargs data = function data args kwargs := by
  cases data <;> simp [apply_to_collection, h]

/-- Witness for C2: the mapping `{"a": 1}` itself matches the leaf type
`dict`, so it is passed whole to the function, not recursed into. -/
theorem claim_C2_leaf_priority_witness :
    isinstance (.vdict (.cons "a" (.vint 1) .nil)) [.tDict] = true ∧
    apply_to_collection [.tDict] constSeven [] [] (.vdict (.cons "a" (.vint 1) .nil))
      = .vint 7 :=
  ⟨by decide, claim_C2_leaf_priority [.tDict] constSeven [] []
    (.vdict (.cons "a" (.vint 1) .nil)) (by decide)⟩

/-! ### Claim C1: the generic-sequence branch -/

/-- C1: a value in the non-string sequence branch (a plain list or plain
tuple not matching the leaf types) is mapped to an ordered sequence, not
a string, whose children are the recursive images of the input's
children in the same order. -/
theorem claim_C1_sequence_branch (dtype : List PyType) (function : PyFun)
    (args : List Value) (kwargs : List (String × Value)) (data : Value) (ds : ValueList)
    (helems : seqElems data = some ds)
    (hleaf : isinstance data dtype = false) :
    isSequence (apply_to_collection dtype function args kwargs data) = true ∧
    isStr (apply_to_collection dtype function args kwargs data) = false ∧
    seqElems (apply_to_collection dtype function args kwargs data)
      = some (apply_to_collection_list dtype function args kwargs ds) ∧
    (apply_to_collection_list dtype function args kwargs ds).toList
      = ds.toList.map (apply_to_collection dtype function args kwargs) := by
  cases data <;> simp_all [seqElems, apply_to_collection, isSequence, isStr,
    apply_to_collection_list_toList]

/-- Witness for C1: the plain tuple `(1, "keep", 2)` with leaf type `int`
and `f(x) = 10 * x` is handled by the sequence branch and maps to the
tuple `(10, "keep", 20)`. -/
theorem claim_C1_sequence_branch_witness :
    seqElems (.vtuple (.cons (.vint 1) (.cons (.vstr "keep") (.cons (.vint 2) .nil))))
        = some (.cons (.vint 1) (.cons (.vstr "keep") (.cons (.vint 2) .nil))) ∧
    isinstance (.vtuple (.cons (.vint 1) (.cons (.vstr "keep") (.cons (.vint 2) .nil))))
        [.tInt] = false ∧
    apply_to_collection [.tInt] (onInt (fun n => 10 * n)) [] []
        (.vtuple (.cons (.vint 1) (.cons (.vstr "keep") (.cons (.vint 2) .nil))))
      = .vtuple (.cons (.vint 10) (.cons (.vstr "keep") (.cons (.vint 20) .nil))) ∧
    (isSequence (apply_to_collection [.tInt] (onInt (fun n => 10 * n)) [] []
        (.vtuple (.cons (.vint 1) (.cons (.vstr "keep") (.cons (.vint 2) .nil))))) = true ∧
      isStr (apply_to_collection [.tInt] (onInt (fun n => 10 * n)) [] []
        (.vtuple (.cons (.vint 1) (.cons (.vstr "keep") (.cons (.vint 2) .nil))))) = false ∧
      seqElems (apply_to_collection [.tInt] (onInt (fun n => 10 * n)) [] []
          (.vtuple (.cons (.vint 1) (.cons (.vstr "keep") (.cons (.vint 2) .nil)))))
        = some (apply_to_collection_list [.tInt] (onInt (fun n => 10 * n)) [] []
            (.cons (.vint 1) (.cons (.vstr "keep") (.cons (.vint 2) .nil)))) ∧
      (apply_to_collection_list [.tInt] (onInt (fun n => 10 * n)) [] []
          (.cons (.vint 1) (.cons (.vstr "keep") (.cons (.vint 2) .nil)))).toList
        = (ValueList.cons (.vint 1) (.cons (.vstr "keep") (.cons (.vint 2) .nil))).toList.map
            (apply_to_collection [.tInt] (onInt (fun n => 10 * n)) [] [])) :=
  ⟨by decide, by decide, by decide,
    claim_C1_sequence_branch [.tInt] (onInt (fun n => 10 * n)) [] []
      (.vtuple (.cons (.vint 1) (.cons (.vstr "keep") (.cons (.vint 2) .nil))))
      (.cons (.vint 1) (.cons (.vstr "keep") (.cons (.vint 2) .nil)))
      (by decide) (by decide)⟩

/-! ### Claim C4: the mapping branch -/

/-- C4: a dict not matching the leaf types is rebuilt as a dict with the
same keys, each value replaced by its recursive image, in order. -/
theorem claim_C4_mapping_branch (dtype : List PyType) (function : PyFun)
    (args : List Value) (kwargs : List (String × Value)) (kvs : KVList)
    (h : isinstance (.vdict kvs) dtype = false) :
    apply_to_collection dtype function args kwargs (.vdict kvs)
      = .vdict (apply_to_collection_kvs dtype function args kwargs kvs) ∧
    (apply_to_collection_kvs dtype function args kwargs kvs).keys = kvs.keys ∧
    (apply_to_collection_kvs dtype function args kwargs kvs).vals
      = kvs.vals.map (apply_to_collection dtype function args kwargs) := by
  refine ⟨?_, ?_, ?_⟩
  · simp [apply_to_collection, h]
  · exact apply_to_collection_kvs_keys dtype function args kwargs kvs
  · exact apply_to_collection_kvs_vals dtype function args kwargs kvs

/-- Witness for C4: the mapping `{"a": 1, "b": 2}` with leaf type `int`
and `f(x) = x * 2` becomes the dict `{"a": 2, "b": 4}`. -/
theorem claim_C4_mapping_branch_witness :
    isinstance (.vdict (.cons "a" (.vint 1) (.cons "b" (.vint 2) .nil))) [.tInt] = false ∧
    apply_to_collection [.tInt] (onInt (fun n => n * 2)) [] []
        (.vdict (.cons "a" (.vint 1) (.cons "b" (.vint 2) .nil)))
      = .vdict (.cons "a" (.vint 2) (.cons "b" (.vint 4) .nil)) ∧
    (apply_to_collection [.tInt] (onInt (fun n => n * 2)) [] []
          (.vdict (.cons "a" (.vint 1) (.cons "b" (.vint 2) .nil)))
        = .vdict (apply_to_collection_kvs [.tInt] (onInt (fun n => n * 2)) [] []
            (.cons "a" (.vint 1) (.cons "b" (.vint 2) .nil))) ∧
      (apply_to_collection_kvs [.tInt] (onInt (fun n => n * 2)) [] []
          (.cons "a" (.vint 1) (.cons "b" (.vint 2) .nil))).keys
        = (KVList.cons "a" (.vint 1) (.cons "b" (.vint 2) .nil)).keys ∧
      (apply_to_collection_kvs [.tInt] (onInt (fun n => n * 2)) [] []
          (.cons "a" (.vint 1) (.cons "b" (.vint 2) .nil))).vals
        = (KVList.cons "a" (.vint 1) (.cons "b" (.vint 2) .nil)).vals.map
            (apply_to_collection [.tInt] (onInt (fun n => n * 2)) [] [])) :=
  ⟨by decide, by decide,
    claim_C4_mapping_branch [.tInt] (onInt (fun n => n * 2)) [] []
      (.cons "a" (.vint 1) (.cons "b" (.vint 2) .nil)) (by decide)⟩

/-! ### Claim C5: the named-tuple branch -/

/-- C5: a named tuple not matching the leaf types is rebuilt positionally
as a named tuple of the same type name, each element replaced by its
recursive image, in order; it is not flattened to a generic sequence. -/
theorem claim_C5_namedtuple_branch (dtype : List PyType) (function : PyFun)
    (args : List Value) (kwargs : List (String × Value)) (n : String) (fs : ValueList)
    (h : isinstance (.vnamedtuple n fs) dtype = false) :
    apply_to_collection dtype function args kwargs (.vnamedtuple n fs)
      = .vnamedtuple n (apply_to_collection_list dtype function args kwargs fs) ∧
    (apply_to_collection_list dtype function args kwargs fs).toList
      = fs.toList.map (apply_to_collection dtype function args kwargs) := by
  exact ⟨by simp [apply_to_collection, h],
    apply_to_collection_list_toList dtype function args kwargs fs⟩

/-- Witness for C5: `Point(x=1, y=2)` with leaf type `int` and
`f(x) = x + 1` becomes `Point(x=2, y=3)` of the same named-tuple type. -/
theorem claim_C5_namedtuple_branch_witness :
    isinstance (.vnamedtuple "Point" (.cons (.vint 1) (.cons (.vint 2) .nil))) [.tInt]
        = false ∧
    apply_to_collection [.tInt] (onInt (fun n => n + 1)) [] []
        (.vnamedtuple "Point" (.cons (.vint 1) (.cons (.vint 2) .nil)))
      = .vnamedtuple "Point" (.cons (.vint 2) (.cons (.vint 3) .nil)) ∧
    (apply_to_collection [.tInt] (onInt (fun n => n + 1)) [] []
          (.vnamedtuple "Point" (.cons (.vint 1) (.cons (.vint 2) .nil)))
        = .vnamedtuple "Point" (apply_to_collection_list [.tInt] (onInt (fun n => n + 1)) [] []
            (.cons (.vint 1) (.cons (.vint 2) .nil))) ∧
      (apply_to_collection_list [.tInt] (onInt (fun n => n + 1)) [] []
          (.cons (.vint 1) (.cons (.vint 2) .nil))).toList
        = (ValueList.cons (.vint 1) (.cons (.vint 2) .nil)).toList.map
            (apply_to_collection [.tInt] (onInt (fun n => n + 1)) [] [])) :=
  ⟨by decide, by decide,
    claim_C5_namedtuple_branch [.tInt] (onInt (fun n => n + 1)) [] []
      "Point" (.cons (.vint 1) (.cons (.vint 2) .nil)) (by decide)⟩

/-! ### Claim C6: strings are opaque -/

/-- C6: a string is never decomposed into characters: if it matches the
leaf types the function is applied to the whole string, otherwise the
string comes back unchanged. -/
theorem claim_C6_strings_opaque (dtype : List PyType) (function : PyFun)
    (args : List Value) (kwargs : List (String × Value)) (s : String) :
    apply_to_collection dtype function args kwargs (.vstr s)
      = bif isinstance (.vstr s) dtype then function (.vstr s) args kwargs
        else .vstr s := by
  cases h : isinstance (.vstr s) dtype <;> simp [apply_to_collection, h]

/-! ### Claim C7: unmatched non-container leaves pass through -/

/-- C7: a value that matches neither the leaf types nor any recognized
container (mapping, named tuple, non-string sequence) is returned
unchanged. -/
theorem claim_C7_unmatched_leaf (dtype : List PyType) (function : PyFun)
    (args : List Value) (kwargs : List (String × Value)) (data : Value)
    (h1 : isinstance data dtype = false)
    (h2 : isRecognizedContainer data = false) :
    apply_to_collection dtype function args kwargs data = data := by
  cases data <;> simp_all [apply_to_collection, isRecognizedContainer,
    isMapping, isNamedTuple, isSequence, isStr]

/-- Witness for C7: a tensor is not an `int` and not a container, so it
passes through `apply_to_collection` unchanged. -/
theorem claim_C7_unmatched_leaf_witness :
    isinstance (.vtensor ⟨5, 0, false⟩) [.tInt] = false ∧
    isRecognizedContainer (.vtensor ⟨5, 0, false⟩) = false ∧
    apply_to_collection [.tInt] (onInt (fun n => n + 1)) [] [] (.vtensor ⟨5, 0, false⟩)
      = .vtensor ⟨5, 0, false⟩ :=
  ⟨by decide, by decide,
    claim_C7_unmatched_leaf [.tInt] (onInt (fun n => n + 1)) [] []
      (.vtensor ⟨5, 0, false⟩) (by decide) (by decide)⟩

/-! ### Claim C3: device transfer -/

mutual

theorem transfer_ok (device : Nat) : ∀ v : Value,
    tensorsMovedTo device
        (apply_to_collection [.tTensor] (transfer_to device) [] [] v) = true ∧
    eraseTensors (apply_to_collection [.tTensor] (transfer_to device) [] [] v)
      = eraseTensors v
  | .vint _ => by
      simp [apply_to_collection, isinstance, typeMatches, tensorsMovedTo, eraseTensors]
  | .vstr _ => by
      simp [apply_to_collection, isinstance, typeMatches, tensorsMovedTo, eraseTensors]
  | .vnone => by
      simp [apply_to_collection, isinstance, typeMatches, tensorsMovedTo, eraseTensors]
  | .vtensor t => by
      simp [apply_to_collection, isinstance, typeMatches, transfer_to, Tensor.to,
        tensorsMovedTo, eraseTensors]
  | .vlist ds => by
      have ih := transfer_ok_list device ds
      simp [apply_to_collection, isinstance, typeMatches, tensorsMovedTo, eraseTensors,
        ih.1, ih.2]
  | .vtuple ds => by
      have ih := transfer_ok_list device ds
      simp [apply_to_collection, isinstance, typeMatches, tensorsMovedTo, eraseTensors,
        ih.1, ih.2]
  | .vnamedtuple n fs => by
      have ih := transfer_ok_list device fs
      simp [apply_to_collection, isinstance, typeMatches, tensorsMovedTo, eraseTensors,
        ih.1, ih.2]
  | .vdict kvs => by
      have ih := transfer_ok_kvs device kvs
      simp [apply_to_collection, isinstance, typeMatches, tensorsMovedTo, eraseTensors,
        ih.1, ih.2]

theorem transfer_ok_list (device : Nat) : ∀ ds : ValueList,
    tensorsMovedToList device
        (apply_to_collection_list [.tTensor] (transfer_to device) [] [] ds) = true ∧
    eraseTensorsList (apply_to_collection_list [.tTensor] (transfer_to device) [] [] ds)
      = eraseTensorsList ds
  | .nil => by simp [apply_to_collection_list, tensorsMovedToList, eraseTensorsList]
  | .cons d ds => by
      have ih1 := transfer_ok device d
      have ih2 := transfer_ok_list device ds
      simp [apply_to_collection_list, tensorsMovedToList, eraseTensorsList,
        ih1.1, ih1.2, ih2.1, ih2.2]

theorem transfer_ok_kvs (device : Nat) : ∀ kvs : KVList,
    tensorsMovedToKVs device
        (apply_to_collection_kvs [.tTensor] (transfer_to device) [] [] kvs) = true ∧
    eraseTensorsKVs (apply_to_collection_kvs [.tTensor] (transfer_to device) [] [] kvs)
      = eraseTensorsKVs kvs
  | .nil => by simp [apply_to_collection_kvs, tensorsMovedToKVs, eraseTensorsKVs]
  | .cons k v kvs => by
      have ih1 := transfer_ok device v
      have ih2 := transfer_ok_kvs device kvs
      simp [apply_to_collection_kvs, tensorsMovedToKVs, eraseTensorsKVs,
        ih1.1, ih1.2, ih2.1, ih2.2]

end

/-- C3: `transfer_batch_to_device` keeps the container shape and every
non-tensor leaf of the batch (result and input agree after erasing
tensors), and every tensor leaf of the result sits on the target device
with a non-blocking transfer requested. -/
theorem claim_C3_transfer (batch : Value) (device : Nat) :
    tensorsMovedTo device (transfer_batch_to_device batch device) = true ∧
    eraseTensors (transfer_batch_to_device batch device) = eraseTensors batch := by
  have h := transfer_ok device batch
  simpa [transfer_batch_to_device] using h

/-! ### Claim C8: error propagation -/

theorem except_pure_ok {ε α : Type} (a : α) : (pure a : Except ε α) = Except.ok a := rfl

theorem except_ok_bind {ε α β : Type} (a : α) (g : α → Except ε β) :
    (Except.ok a >>= g) = g a := rfl

theorem except_error_bind {ε α β : Type} (e : ε) (g : α → Except ε β) :
    ((Except.error e : Except ε α) >>= g) = Except.error e := rfl

mutual

theorem applyE_ok {ε : Type} (dtype : List PyType) (fE : PyFunE ε) (f : PyFun)
    (args : List Value) (kwargs : List (String × Value))
    (hok : ∀ v a k, fE v a k = Except.ok (f v a k)) : ∀ data : Value,
    apply_to_collectionE dtype fE args kwargs data
      = .ok (apply_to_collection dtype f args kwargs data)
  | .vint n => by
      cases h : isinstance (.vint n) dtype <;>
        simp [apply_to_collectionE, apply_to_collection, h, hok, except_pure_ok,
          except_ok_bind]
  | .vstr s => by
      cases h : isinstance (.vstr s) dtype <;>
        simp [apply_to_collectionE, apply_to_collection, h, hok, except_pure_ok,
          except_ok_bind]
  | .vtensor t => by
      cases h : isinstance (.vtensor t) dtype <;>
        simp [apply_to_collectionE, apply_to_collection, h, hok, except_pure_ok,
          except_ok_bind]
  | .vnone => by
      cases h : isinstance Value.vnone dtype <;>
        simp [apply_to_collectionE, apply_to_collection, h, hok, except_pure_ok,
          except_ok_bind]
  | .vlist ds => by
      have ih := applyE_ok_list dtype fE f args kwargs hok ds
      cases h : isinstance (.vlist ds) dtype <;>
        simp [apply_to_collectionE, apply_to_collection, h, hok, ih, except_pure_ok,
          except_ok_bind]
  | .vtuple ds => by
      have ih := applyE_ok_list dtype fE f args kwargs hok ds
      cases h : isinstance (.vtuple ds) dtype <;>
        simp [apply_to_collectionE, apply_to_collection, h, hok, ih, except_pure_ok,
          except_ok_bind]
  | .vnamedtuple n fs => by
      have ih := applyE_ok_list dtype fE f args kwargs hok fs
      cases h : isinstance (.vnamedtuple n fs) dtype <;>
        simp [apply_to_collectionE, apply_to_collection, h, hok, ih, except_pure_ok,
          except_ok_bind]
  | .vdict kvs => by
      have ih := applyE_ok_kvs dtype fE f args kwargs hok kvs
      cases h : isinstance (.vdict kvs) dtype <;>
        simp [apply_to_collectionE, apply_to_collection, h, hok, ih, except_pure_ok,
          except_ok_bind]

theorem applyE_ok_list {ε : Type} (dtype : List PyType) (fE : PyFunE ε) (f : PyFun)
    (args : List Value) (kwargs : List (String × Value))
    (hok : ∀ v a k, fE v a k = Except.ok (f v a k)) : ∀ ds : ValueList,
    apply_to_collectionE_list dtype fE args kwargs ds
      = .ok (apply_to_collection_list dtype f args kwargs ds)
  | .nil => by
      simp [apply_to_collectionE_list, apply_to_collection_list, except_pure_ok]
  | .cons d ds => by
      have ih1 := applyE_ok dtype fE f args kwargs hok d
      have ih2 := applyE_ok_list dtype fE f args kwargs hok ds
      simp [apply_to_collectionE_list, apply_to_collection_list, ih1, ih2,
        except_pure_ok, except_ok_bind]

theorem applyE_ok_kvs {ε : Type} (dtype : List PyType) (fE : PyFunE ε) (f : PyFun)
    (args : List Value) (kwargs : List (String × Value))
    (hok : ∀ v a k, fE v a k = Except.ok (f v a k)) : ∀ kvs : KVList,
    apply_to_collectionE_kvs dtype fE args kwargs kvs
      = .ok (apply_to_collection_kvs dtype f args kwargs kvs)
  | .nil => by
      simp [apply_to_collectionE_kvs, apply_to_collection_kvs, except_pure_ok]
  | .cons k v kvs => by
      have ih1 := applyE_ok dtype fE f args kwargs hok v
      have ih2 := applyE_ok_kvs dtype fE f args kwargs hok kvs
      simp [apply_to_collectionE_kvs, apply_to_collection_kvs, ih1, ih2,
        except_pure_ok, except_ok_bind]

end

mutual

theorem applyE_error {ε : Type} (dtype : List PyType) (fE : PyFunE ε)
    (args : List Value) (kwargs : List (String × Value)) :
    ∀ (data : Value) (e : ε),
      apply_to_collectionE dtype fE args kwargs data = .error e →
      ∃ v, isinstance v dtype = true ∧ fE v args kwargs = .error e
  | .vint n, e => by
      cases h : isinstance (.vint n) dtype <;>
        simp [apply_to_collectionE, h, except_pure_ok]
      all_goals exact fun he => ⟨.vint n, h, he⟩
  | .vstr s, e => by
      cases h : isinstance (.vstr s) dtype <;>
        simp [apply_to_collectionE, h, except_pure_ok]
      all_goals exact fun he => ⟨.vstr s, h, he⟩
  | .vtensor t, e => by
      cases h : isinstance (.vtensor t) dtype <;>
        simp [apply_to_collectionE, h, except_pure_ok]
      all_goals exact fun he => ⟨.vtensor t, h, he⟩
  | .vnone, e => by
      cases h : isinstance Value.vnone dtype <;>
        simp [apply_to_collectionE, h, except_pure_ok]
      all_goals exact fun he => ⟨.vnone, h, he⟩
  | .vlist ds, e => by
      cases h : isinstance (.vlist ds) dtype
      · intro he
        rcases hl : apply_to_collectionE_list dtype fE args kwargs ds with e' | ds'
        · rw [apply_to_collectionE, h] at he
          simp only [Bool.false_eq_true, if_false, hl, except_error_bind] at he
          cases he
          exact applyE_error_list dtype fE args kwargs ds e hl
        · rw [apply_to_collectionE, h] at he
          simp [hl, except_ok_bind, except_pure_ok] at he
      · intro he
        rw [apply_to_collectionE, h] at he
        simp only [if_true] at he
        exact ⟨.vlist ds, h, he⟩
  | .vtuple ds, e => by
      cases h : isinstance (.vtuple ds) dtype
      · intro he
        rcases hl : apply_to_collectionE_list dtype fE args kwargs ds with e' | ds'
        · rw [apply_to_collectionE, h] at he
          simp only [Bool.false_eq_true, if_false, hl, except_error_bind] at he
          cases he
          exact applyE_error_list dtype fE args kwargs ds e hl
        · rw [apply_to_collectionE, h] at he
          simp [hl, except_ok_bind, except_pure_ok] at he
      · intro he
        rw [apply_to_collectionE, h] at he
        simp only [if_true] at he
        exact ⟨.vtuple ds, h, he⟩
  | .vnamedtuple n fs, e => by
      cases h : isinstance (.vnamedtuple n fs) dtype
      · intro he
        rcases hl : apply_to_collectionE_list dtype fE args kwargs fs with e' | fs'
        · rw [apply_to_collectionE, h] at he
          simp only [Bool.false_eq_true, if_false, hl, except_error_bind] at he
          cases he
          exact applyE_error_list dtype fE args kwargs fs e hl
        · rw [apply_to_collectionE, h] at he
          simp [hl, except_ok_bind, except_pure_ok] at he
      · intro he
        rw [apply_to_collectionE, h] at he
        simp only [if_true] at he
        exact ⟨.vnamedtuple n fs, h, he⟩
  | .vdict kvs, e => by
      cases h : isinstance (.vdict kvs) dtype
      · intro he
        rcases hl : apply_to_collectionE_kvs dtype fE args kwargs kvs with e' | kvs'
        · rw [apply_to_collectionE, h] at he
          simp only [Bool.false_eq_true, if_false, hl, except_error_bind] at he
          cases he
          exact applyE_error_kvs dtype fE args kwargs kvs e hl
        · rw [apply_to_collectionE, h] at he
          simp [hl, except_ok_bind, except_pure_ok] at he
      · intro he
        rw [apply_to_collectionE, h] at he
        simp only [if_true] at he
        exact ⟨.vdict kvs, h, he⟩

theorem applyE_error_list {ε : Type} (dtype : List PyType) (fE : PyFunE ε)
    (args : List Value) (kwargs : List (String × Value)) :
    ∀ (ds : ValueList) (e : ε),
      apply_to_collectionE_list dtype fE args kwargs ds = .error e →
      ∃ v, isinstance v dtype = true ∧ fE v args kwargs = .error e
  | .nil, e => by simp [apply_to_collectionE_list, except_pure_ok]
  | .cons d ds, e => by
      intro he
      rcases hd : apply_to_collectionE dtype fE args kwargs d with e' | d'
      · rw [apply_to_collectionE_list] at he
        rw [hd, except_error_bind] at he
        cases he
        exact applyE_error dtype fE args kwargs d e hd
      · rcases hl : apply_to_collectionE_list dtype fE args kwargs ds with e' | ds'
        · rw [apply_to_collectionE_list] at he
          rw [hd, except_ok_bind, hl, except_error_bind] at he
          cases he
          exact applyE_error_list dtype fE args kwargs ds e hl
        · rw [apply_to_collectionE_list, hd, except_ok_bind, hl, except_ok_bind] at he
          simp [except_pure_ok] at he

theorem applyE_error_kvs {ε : Type} (dtype : List PyType) (fE : PyFunE ε)
    (args : List Value) (kwargs : List (String × Value)) :
    ∀ (kvs : KVList) (e : ε),
      apply_to_collectionE_kvs dtype fE args kwargs kvs = .error e →
      ∃ v, isinstance v dtype = true ∧ fE v args kwargs = .error e
  | .nil, e => by simp [apply_to_collectionE_kvs, except_pure_ok]
  | .cons k v kvs, e => by
      intro he
      rcases hd : apply_to_collectionE dtype fE args kwargs v with e' | v'
      · rw [apply_to_collectionE_kvs] at he
        rw [hd, except_error_bind] at he
        cases he
        exact applyE_error dtype fE args kwargs v e hd
      · rcases hl : apply_to_collectionE_kvs dtype fE args kwargs kvs with e' | kvs'
        · rw [apply_to_collectionE_kvs] at he
          rw [hd, except_ok_bind, hl, except_error_bind] at he
          cases he
          exact applyE_error_kvs dtype fE args kwargs kvs e hl
        · rw [apply_to_collectionE_kvs, hd, except_ok_bind, hl, except_ok_bind] at he
          simp [except_pure_ok] at he

end

/-- C8: in the fallible embedding the function raises no errors of its
own: with a never-raising transformation the call returns exactly the
pure result, and any error outcome is precisely an error the
transformation function produced on some matched sub-value, propagated
to the caller unmodified — no recovery, no retry, no partial result. -/
theorem claim_C8_error_propagation :
    (∀ (ε : Type) (dtype : List PyType) (fE : PyFunE ε) (f : PyFun)
        (args : List Value) (kwargs : List (String × Value)) (data : Value),
        (∀ v a k, fE v a k = Except.ok (f v a k)) →
        apply_to_collectionE dtype fE args kwargs data
          = .ok (apply_to_collection dtype f args kwargs data)) ∧
    (∀ (ε : Type) (dtype : List PyType) (fE : PyFunE ε)
        (args : List Value) (kwargs : List (String × Value)) (data : Value) (e : ε),
        apply_to_collectionE dtype fE args kwargs data = .error e →
        ∃ v, isinstance v dtype = true ∧ fE v args kwargs = .error e) :=
  ⟨fun _ dtype fE f args kwargs data hok => applyE_ok dtype fE f args kwargs hok data,
   fun _ dtype fE args kwargs data e he => applyE_error dtype fE args kwargs data e he⟩

/-- Fallible doubling of integer leaves: never raises. -/
def dblE : PyFunE String := fun v a k => Except.ok (onInt (fun n => n * 2) v a k)

/-- A transformation that always raises. -/
def boomE : PyFunE String := fun _ _ _ => Except.error "boom"

/-- Witness for C8: a never-raising transformation gives the pure result
on `[3]`, and the error raised by an always-raising transformation on
the matched leaf of `[3]` reaches the caller unmodified. -/
theorem claim_C8_error_propagation_witness :
    apply_to_collectionE [.tInt] dblE [] [] (.vlist (.cons (.vint 3) .nil))
        = .ok (apply_to_collection [.tInt] (onInt (fun n => n * 2)) [] []
            (.vlist (.cons (.vint 3) .nil))) ∧
    (∃ v, isinstance v [.tInt] = true ∧ boomE v [] [] = .error "boom") :=
  ⟨claim_C8_error_propagation.1 String [.tInt] dblE (onInt (fun n => n * 2)) [] []
      (.vlist (.cons (.vint 3) .nil)) (fun _ _ _ => rfl),
   claim_C8_error_propagation.2 String [.tInt] boomE [] []
      (.vlist (.cons (.vint 3) .nil)) "boom" rfl⟩

/-! ### Claim C9: termination -/

mutual

theorem apply_fuel_enough (dtype : List PyType) (function : PyFun)
    (args : List Value) (kwargs : List (String × Value)) :
    ∀ (data : Value) (fuel : Nat), depth data < fuel →
      apply_fuel dtype function args kwargs fuel data
        = some (apply_to_collection dtype function args kwargs data)
  | .vint n, fuel, h => by
      match fuel, h with
      | fuel + 1, _ =>
        cases hi : isinstance (.vint n) dtype <;>
          simp [apply_fuel, apply_to_collection, hi]
  | .vstr s, fuel, h => by
      match fuel, h with
      | fuel + 1, _ =>
        cases hi : isinstance (.vstr s) dtype <;>
          simp [apply_fuel, apply_to_collection, hi]
  | .vtensor t, fuel, h => by
      match fuel, h with
      | fuel + 1, _ =>
        cases hi : isinstance (.vtensor t) dtype <;>
          simp [apply_fuel, apply_to_collection, hi]
  | .vnone, fuel, h => by
      match fuel, h with
      | fuel + 1, _ =>
        cases hi : isinstance Value.vnone dtype <;>
          simp [apply_fuel, apply_to_collection, hi]
  | .vlist ds, fuel, h => by
      match fuel, h with
      | fuel + 1, h =>
        have hds : depthList ds < fuel := by
          have hdepth := h
          simp [depth] at hdepth
          omega
        have ih := apply_fuel_enough_list dtype function args kwargs ds fuel hds
        cases hi : isinstance (.vlist ds) dtype <;>
          simp [apply_fuel, apply_to_collection, hi, ih]
  | .vtuple ds, fuel, h => by
      match fuel, h with
      | fuel + 1, h =>
        have hds : depthList ds < fuel := by
          have hdepth := h
          simp [depth] at hdepth
          omega
        have ih := apply_fuel_enough_list dtype function args kwargs ds fuel hds
        cases hi : isinstance (.vtuple ds) dtype <;>
          simp [apply_fuel, apply_to_collection, hi, ih]
  | .vnamedtuple n fs, fuel, h => by
      match fuel, h with
      | fuel + 1, h =>
        have hfs : depthList fs < fuel := by
          have hdepth := h
          simp [depth] at hdepth
          omega
        have ih := apply_fuel_enough_list dtype function args kwargs fs fuel hfs
        cases hi : isinstance (.vnamedtuple n fs) dtype <;>
          simp [apply_fuel, apply_to_collection, hi, ih]
  | .vdict kvs, fuel, h => by
      match fuel, h with
      | fuel + 1, h =>
        have hkvs : depthKVs kvs < fuel := by
          have hdepth := h
          simp [depth] at hdepth
          omega
        have ih := apply_fuel_enough_kvs dtype function args kwargs kvs fuel hkvs
        cases hi : isinstance (.vdict kvs) dtype <;>
          simp [apply_fuel, apply_to_collection, hi, ih]

theorem apply_fuel_enough_list (dtype : List PyType) (function : PyFun)
    (args : List Value) (kwargs : List (String × Value)) :
    ∀ (ds : ValueList) (fuel : Nat), depthList ds < fuel →
      apply_fuel_list dtype function args kwargs fuel ds
        = some (apply_to_collection_list dtype function args kwargs ds)
  | .nil, fuel, _ => by simp [apply_fuel_list, apply_to_collection_list]
  | .cons d ds, fuel, h => by
      have hd : depth d < fuel := by
        have hdepth := h
        simp [depthList] at hdepth
        omega
      have hds : depthList ds < fuel := by
        have hdepth := h
        simp [depthList] at hdepth
        omega
      have ih1 := apply_fuel_enough dtype function args kwargs d fuel hd
      have ih2 := apply_fuel_enough_list dtype function args kwargs ds fuel hds
      simp [apply_fuel_list, apply_to_collection_list, ih1, ih2]

theorem apply_fuel_enough_kvs (dtype : List PyType) (function : PyFun)
    (args : List Value) (kwargs : List (String × Value)) :
    ∀ (kvs : KVList) (fuel : Nat), depthKVs kvs < fuel →
      apply_fuel_kvs dtype function args kwargs fuel kvs
        = some (apply_to_collection_kvs dtype function args kwargs kvs)
  | .nil, fuel, _ => by simp [apply_fuel_kvs, apply_to_collection_kvs]
  | .cons k v kvs, fuel, h => by
      have hv : depth v < fuel := by
        have hdepth := h
        simp [depthKVs] at hdepth
        omega
      have hkvs : depthKVs kvs < fuel := by
        have hdepth := h
        simp [depthKVs] at hdepth
        omega
      have ih1 := apply_fuel_enough dtype function args kwargs v fuel hv
      have ih2 := apply_fuel_enough_kvs dtype function args kwargs kvs fuel hkvs
      simp [apply_fuel_kvs, apply_to_collection_kvs, ih1, ih2]

end

/-- C9: the recursion terminates on every finite value: any fuel budget
exceeding the container-nesting depth suffices for the fuel-bounded
version to finish, and it then computes the total function.  Strings
have depth zero (the traversal never descends into them), so bounded
fuel covers them as well. -/
theorem claim_C9_termination (dtype : List PyType) (function : PyFun)
    (args : List Value) (kwargs : List (String × Value)) (data : Value) (fuel : Nat)
    (h : depth data < fuel) :
    apply_fuel dtype function args kwargs fuel data
      = some (apply_to_collection dtype function args kwargs data) :=
  apply_fuel_enough dtype function args kwargs data fuel h

/-- Witness for C9: on the nested mapping `{"a": [1, 2]}` (depth 2) a
fuel budget of 3 suffices and yields `{"a": [2, 3]}`. -/
theorem claim_C9_termination_witness :
    depth (.vdict (.cons "a" (.vlist (.cons (.vint 1) (.cons (.vint 2) .nil))) .nil)) < 3 ∧
    apply_fuel [.tInt] (onInt (fun n => n + 1)) [] [] 3
        (.vdict (.cons "a" (.vlist (.cons (.vint 1) (.cons (.vint 2) .nil))) .nil))
      = some (apply_to_collection [.tInt] (onInt (fun n => n + 1)) [] []
          (.vdict (.cons "a" (.vlist (.cons (.vint 1) (.cons (.vint 2) .nil))) .nil))) ∧
    apply_to_collection [.tInt] (onInt (fun n => n + 1)) [] []
        (.vdict (.cons "a" (.vlist (.cons (.vint 1) (.cons (.vint 2) .nil))) .nil))
      = .vdict (.cons "a" (.vlist (.cons (.vint 2) (.cons (.vint 3) .nil))) .nil) :=
  ⟨by decide,
    claim_C9_termination [.tInt] (onInt (fun n => n + 1)) [] []
      (.vdict (.cons "a" (.vlist (.cons (.vint 1) (.cons (.vint 2) .nil))) .nil)) 3
      (by decide),
    by decide⟩

/-! ### Claim C10: the function is applied exactly once per matched leaf -/

mutual

theorem apply_traced_ok (dtype : List PyType) (function : PyFun)
    (args : List Value) (kwargs : List (String × Value)) : ∀ data : Value,
    (apply_traced dtype function args kwargs data).1
        = apply_to_collection dtype function args kwargs data ∧
    (apply_traced dtype function args kwargs data).2 = matchedLeaves dtype data
  | .vint n => by
      cases h : isinstance (.vint n) dtype <;>
        simp [apply_traced, apply_to_collection, matchedLeaves, h]
  | .vstr s => by
      cases h : isinstance (.vstr s) dtype <;>
        simp [apply_traced, apply_to_collection, matchedLeaves, h]
  | .vtensor t => by
      cases h : isinstance (.vtensor t) dtype <;>
        simp [apply_traced, apply_to_collection, matchedLeaves, h]
  | .vnone => by
      cases h : isinstance Value.vnone dtype <;>
        simp [apply_traced, apply_to_collection, matchedLeaves, h]
  | .vlist ds => by
      have ih := apply_traced_ok_list dtype function args kwargs ds
      cases h : isinstance (.vlist ds) dtype <;>
        simp [apply_traced, apply_to_collection, matchedLeaves, h, ih.1, ih.2]
  | .vtuple ds => by
      have ih := apply_traced_ok_list dtype function args kwargs ds
      cases h : isinstance (.vtuple ds) dtype <;>
        simp [apply_traced, apply_to_collection, matchedLeaves, h, ih.1, ih.2]
  | .vnamedtuple n fs => by
      have ih := apply_traced_ok_list dtype function args kwargs fs
      cases h : isinstance (.vnamedtuple n fs) dtype <;>
        simp [apply_traced, apply_to_collection, matchedLeaves, h, ih.1, ih.2]
  | .vdict kvs => by
      have ih := apply_traced_ok_kvs dtype function args kwargs kvs
      cases h : isinstance (.vdict kvs) dtype <;>
        simp [apply_traced, apply_to_collection, matchedLeaves, h, ih.1, ih.2]

theorem apply_traced_ok_list (dtype : List PyType) (function : PyFun)
    (args : List Value) (kwargs : List (String × Value)) : ∀ ds : ValueList,
    (apply_traced_list dtype function args kwargs ds).1
        = apply_to_collection_list dtype function args kwargs ds ∧
    (apply_traced_list dtype function args kwargs ds).2 = matchedLeavesList dtype ds
  | .nil => by
      simp [apply_traced_list, apply_to_collection_list, matchedLeavesList]
  | .cons d ds => by
      have ih1 := apply_traced_ok dtype function args kwargs d
      have ih2 := apply_traced_ok_list dtype function args kwargs ds
      simp [apply_traced_list, apply_to_collection_list, matchedLeavesList,
        ih1.1, ih1.2, ih2.1, ih2.2]

theorem apply_traced_ok_kvs (dtype : List PyType) (function : PyFun)
    (args : List Value) (kwargs : List (String × Value)) : ∀ kvs : KVList,
    (apply_traced_kvs dtype function args kwargs kvs).1
        = apply_to_collection_kvs dtype function args kwargs kvs ∧
    (apply_traced_kvs dtype function args kwargs kvs).2 = matchedLeavesKVs dtype kvs
  | .nil => by
      simp [apply_traced_kvs, apply_to_collection_kvs, matchedLeavesKVs]
  | .cons k v kvs => by
      have ih1 := apply_traced_ok dtype function args kwargs v
      have ih2 := apply_traced_ok_kvs dtype function args kwargs kvs
      simp [apply_traced_kvs, apply_to_collection_kvs, matchedLeavesKVs,
        ih1.1, ih1.2, ih2.1, ih2.2]

end

/-- C10: the transformation function is applied exactly once to each
matched sub-value the traversal reaches — the trace of its invocations
is `matchedLeaves dtype data`, which lists the maximal matched
sub-values of the input in traversal order and does not depend on the
function — and its results are inserted as-is, never transformed again
and never recursed into. -/
theorem claim_C10_exactly_once (dtype : List PyType) (function : PyFun)
    (args : List Value) (kwargs : List (String × Value)) (data : Value) :
    (apply_traced dtype function args kwargs data).1
        = apply_to_collection dtype function args kwargs data ∧
    (apply_traced dtype function args kwargs data).2 = matchedLeaves dtype data :=
  apply_traced_ok dtype function args kwargs data
